import Mathlib

/-!
Verification development for the Nasa_space_2025 repository.

The repository is a React/TypeScript front end around an (external) orbital
mechanics backend.  JavaScript numbers are embedded as real numbers (`ℝ`),
string-only data as `String`, and the purely data-driven Page2 selection flow
over exact rationals (`ℚ`).  `Math.round(x)` and `Number(x.toFixed(1))` are
embedded through Mathlib's `round` (`round x = ⌊x + 1/2⌋`), which agrees with
the ECMAScript rounding rule (ties go to the larger value).
-/

noncomputable section

open Real

/-! ## 3-vectors (embedding of THREE.Vector3 values) -/

/-- A 3-component real vector, the shallow embedding of `THREE.Vector3`. -/
@[ext]
structure Vec3 where
  x : ℝ
  y : ℝ
  z : ℝ

namespace Vec3

def zero : Vec3 := ⟨0, 0, 0⟩

instance : Add Vec3 := ⟨fun a b => ⟨a.x + b.x, a.y + b.y, a.z + b.z⟩⟩
instance : Sub Vec3 := ⟨fun a b => ⟨a.x - b.x, a.y - b.y, a.z - b.z⟩⟩
instance : SMul ℝ Vec3 := ⟨fun c v => ⟨c * v.x, c * v.y, c * v.z⟩⟩

/-- Dot product, as in `THREE.Vector3.dot`. -/
def dot (a b : Vec3) : ℝ := a.x * b.x + a.y * b.y + a.z * b.z

/-- Cross product, as in `THREE.Vector3.crossVectors`. -/
def cross (a b : Vec3) : Vec3 :=
  ⟨a.y * b.z - a.z * b.y, a.z * b.x - a.x * b.z, a.x * b.y - a.y * b.x⟩

/-- Squared length (`THREE.Vector3.lengthSq`). -/
def normSq (v : Vec3) : ℝ := dot v v

/-- Euclidean length (`THREE.Vector3.length`). -/
def norm (v : Vec3) : ℝ := Real.sqrt (normSq v)

/-- `THREE.Vector3.normalize` divides by `length || 1`: the zero vector is
left unchanged instead of producing NaNs. -/
def normalizeJS (v : Vec3) : Vec3 :=
  if norm v = 0 then v else (1 / norm v) • v

end Vec3

/-! ## ComparisonScreen engine (frontend3/src/pages/ComparisonScreen.tsx)

`calculateImpactEffects` and `calculateMitigationEffects` close over the
`asteroid`/`mitigation` props; here they are functions of those records.
`Math.log10` is embedded as `Real.logb 10` (they agree on positive reals). -/

/-- The `Asteroid` interface of frontend3/src/App.tsx. -/
structure Asteroid where
  diameter : ℝ
  velocity : ℝ
  mass : ℝ
  composition : String
  approach : String

/-- The mitigation record as consumed by `calculateMitigationEffects`:
`successRatePct` embeds `parseFloat(mitigation.successRate.replace('%',''))`,
the numeric percentage parsed from the `successRate` string. -/
structure MitigationStrategy where
  name : String
  successRatePct : ℝ
  mass : ℝ
  velocity : ℝ

/-- Result record of `calculateImpactEffects`. -/
structure ImpactEffects where
  energy : ℝ
  craterDiameter : ℝ
  earthquakeMagnitude : ℝ
  tsunamiHeight : ℝ
  tsunamiMagnitude : ℝ
  casualties : ℝ

/-- `calculateImpactEffects` from ComparisonScreen.tsx (non-null asteroid). -/
def calculateImpactEffects (asteroid : Asteroid) : ImpactEffects :=
  let diameter := asteroid.diameter
  let velocity := asteroid.velocity
  let energy := diameter ^ 3 * velocity ^ 2 / 1000
  let craterDiameter := ((round (diameter * 20) : ℤ) : ℝ)
  let earthquakeMagnitude := min 9.5 (6 + Real.logb 10 energy)
  let tsunamiHeight := if energy > 100 then min 50 (energy / 10) else 0
  let tsunamiMagnitude :=
    if tsunamiHeight > 0 then
      min 9 (((round ((4 + 2 * Real.logb 10 tsunamiHeight) * 10) : ℤ) : ℝ) / 10)
    else 0
  let casualties := ((round (energy * 10000) : ℤ) : ℝ)
  ⟨energy, craterDiameter, earthquakeMagnitude, tsunamiHeight, tsunamiMagnitude,
    casualties⟩

/-- Result of `calculateMitigationEffects` (discriminated union on `status`). -/
inductive MitigationEffects where
  | deflected (successRate deflectionAngle : ℝ) (newTrajectory : String)
  | partialSuccess (successRate craterDiameter earthquakeMagnitude
      casualties effectsReduction : ℝ)

/-- `calculateMitigationEffects` from ComparisonScreen.tsx (non-null inputs). -/
def calculateMitigationEffects (asteroid : Asteroid)
    (mitigation : MitigationStrategy) : MitigationEffects :=
  let successRate := mitigation.successRatePct / 100
  let deflectionAngle :=
    mitigation.mass * mitigation.velocity / (asteroid.diameter * 1000)
  if successRate > 0.8 then
    .deflected successRate (((round (deflectionAngle * 1000) : ℤ) : ℝ) / 1000)
      "Safe flyby at 2.5 LD"
  else
    let effectsReduction := successRate * 0.7
    let originalEffects := calculateImpactEffects asteroid
    .partialSuccess successRate
      ((round (originalEffects.craterDiameter * (1 - effectsReduction)) : ℤ) : ℝ)
      (((round (originalEffects.earthquakeMagnitude * (1 - effectsReduction) * 10) : ℤ) : ℝ) / 10)
      ((round (originalEffects.casualties * (1 - effectsReduction)) : ℤ) : ℝ)
      ((round (effectsReduction * 100) : ℤ) : ℝ)

/-- The concrete asteroid literal passed to ComparisonScreen by the
`/comparison` route of frontend3/src/App.tsx. -/
def routeAsteroid : Asteroid :=
  { diameter := 1000, velocity := 20, mass := 1000000,
    composition := "rocky", approach := "direct" }

/-! ## Mission scene (frontend/src/components/Asteroid.tsx and the Missile
component of src/unnamed/part_001)

The `useFrame` body of the `Asteroid` component is embedded as a state-step
function; the missile–asteroid collision handler of `Missile` as a function
from the collision context to the resulting store updates.  Visual-only state
(spin, blast timer, trail) is not part of the embedded state. -/

/-- CONFIG constants of the `Asteroid` component. -/
def MU : ℝ := 0.6

def EPS : ℝ := 0.25

def ASTER_RAD : ℝ := 0.03

def HIT_TOL : ℝ := 0.01

def ESCAPE_BOUNDS : ℝ := 60

/-- `mapAngleToSmallDeflection` from Asteroid.tsx: smooth growth of the yaw
with an asymptotic cap (`D_MAX = 10`, half value at `A50 = 600`). -/
def mapAngleToSmallDeflection (angleDeg : ℝ) : ℝ :=
  let A50 : ℝ := 600
  let D_MAX : ℝ := 10
  let mag := |angleDeg|
  let k := Real.log 2 / A50
  let yaw := D_MAX * (1 - Real.exp (-(k * mag)))
  Real.sign angleDeg * yaw

/-- `yawNeededToMissInVacuum` from Asteroid.tsx.  `THREE.MathUtils.clamp` is
`Math.max(lo, Math.min(hi, value))`. -/
def yawNeededToMissInVacuum (vhat rVec : Vec3) (Rsafe : ℝ) : ℝ :=
  let r := rVec.norm
  if r ≤ 1e-6 then 0
  else
    let rhat := (1 / r) • rVec
    let d := max (-1) (min 1 (vhat.dot rhat))
    let beta := Real.arccos d
    let s := max 0 (min 1 (Rsafe / r))
    let betaNeeded := Real.arcsin s
    let margin := 0.5 * π / 180
    max 0 (betaNeeded + margin - beta)

/-- Application of `THREE.Matrix4.makeRotationAxis(axis, θ)` to a vector
(the matrix entries exactly as three.js builds them). -/
def rotAxisApply (k : Vec3) (θ : ℝ) (v : Vec3) : Vec3 :=
  let c := Real.cos θ
  let s := Real.sin θ
  let t := 1 - c
  ⟨(t * k.x * k.x + c) * v.x + (t * k.x * k.y - s * k.z) * v.y +
      (t * k.x * k.z + s * k.y) * v.z,
    (t * k.x * k.y + s * k.z) * v.x + (t * k.y * k.y + c) * v.y +
      (t * k.y * k.z - s * k.x) * v.z,
    (t * k.x * k.z - s * k.y) * v.x + (t * k.y * k.z + s * k.x) * v.y +
      (t * k.z * k.z + c) * v.z⟩

/-- A one-shot deflection request (`asteroidDeflectRotate` in the sim store). -/
structure DeflectRequest where
  angleDeg : ℝ
  axis : Option Vec3

/-- Run outcome bookkeeping of the sim store. -/
inductive SimOutcome where
  | pending
  | earthHit
  | escaped
  deriving DecidableEq

/-- The claim-relevant state of the `Asteroid` component and sim store. -/
structure AstState where
  pos : Vec3
  vel : Vec3
  deflect : Option DeflectRequest
  hit : Bool
  alive : Bool
  outcome : SimOutcome

/-- Axis resolution for a deflection request (Asteroid.tsx lines 119–126):
prefer the axis provided by the missile, else `vhat × rVec`, with a fallback
to `(0,1,0)` when degenerate. -/
def resolveDeflectAxis (req : DeflectRequest) (pos vel earthCenter : Vec3) : Vec3 :=
  match req.axis with
  | some ax =>
      let a := ax.normalizeJS
      if a.normSq < 1e-10 then ⟨0, 1, 0⟩ else a
  | none =>
      let rVec := earthCenter - pos
      let a := (Vec3.cross vel.normalizeJS rVec).normalizeJS
      if a.normSq < 1e-10 then ⟨0, 1, 0⟩ else a

/-- The effective yaw (degrees) applied for a deflection request: the smooth
map of the user angle, with the guaranteed-miss override once the raw user
angle reaches the 10° cutoff.  `Math.sign(userAngleDeg || 1)` is 1 at 0. -/
def effYawDeg (userAngleDeg : ℝ) (pos vel earthCenter : Vec3)
    (earthRadius : ℝ) : ℝ :=
  let rVec := earthCenter - pos
  let vhat := vel.normalizeJS
  let yawDeg := mapAngleToSmallDeflection userAngleDeg
  if 10 ≤ |userAngleDeg| then
    let Rsafe := earthRadius + ASTER_RAD + HIT_TOL
    let extraRad := yawNeededToMissInVacuum vhat rVec Rsafe
    let extraDeg := extraRad * 180 / π
    let yawAbs := max |yawDeg| (extraDeg + 6)
    (if userAngleDeg = 0 then 1 else Real.sign userAngleDeg) * yawAbs
  else yawDeg

/-- One `useFrame` tick of the `Asteroid` component with frame time `δ`:
consume a pending one-shot deflection, then (while not hit) apply gravity,
integrate, and run the impact / escape checks.  Note the impact test uses the
distance `r` measured before the integration step. -/
def astStep (earthRadius : ℝ) (earthCenter : Vec3) (δ : ℝ) (s : AstState) :
    AstState :=
  if s.alive = false then s
  else
    let s1 :=
      match s.deflect with
      | some req =>
          let axis := resolveDeflectAxis req s.pos s.vel earthCenter
          let yaw := effYawDeg req.angleDeg s.pos s.vel earthCenter earthRadius
          { s with vel := rotAxisApply axis (yaw * π / 180) s.vel,
                   deflect := none }
      | none => s
    if s1.hit then s1
    else
      let rVec := earthCenter - s1.pos
      let r := max rVec.norm 1e-5
      let accel := (MU / (r * r + EPS)) • rVec.normalizeJS
      let vel1 := s1.vel + δ • accel
      let pos1 := s1.pos + δ • vel1
      let surface := earthRadius + ASTER_RAD
      if r ≤ surface + HIT_TOL then
        let impactPoint := earthCenter + earthRadius • (pos1 - earthCenter).normalizeJS
        { pos := impactPoint, vel := Vec3.zero, deflect := s1.deflect,
          hit := true, alive := false,
          outcome := if s1.outcome = SimOutcome.pending then SimOutcome.earthHit
            else s1.outcome }
      else if s1.outcome = SimOutcome.pending ∧
          (ESCAPE_BOUNDS < |pos1.x| ∨ ESCAPE_BOUNDS < |pos1.y| ∨
            ESCAPE_BOUNDS < |pos1.z|) then
        { s1 with pos := pos1, vel := vel1, outcome := .escaped }
      else
        { s1 with pos := pos1, vel := vel1 }

/-- Iterated frame ticks: the simulated trajectory over a list of frame
times. -/
def astRun (earthRadius : ℝ) (earthCenter : Vec3) :
    List ℝ → AstState → AstState
  | [], s => s
  | δ :: δs, s => astRun earthRadius earthCenter δs
      (astStep earthRadius earthCenter δ s)

/-- Store updates produced by the missile–asteroid collision handler of the
`Missile` component (src/unnamed/part_001). -/
structure CollisionOutcome where
  missileVisible : Bool
  asteroidDestroyed : Bool
  deflectRequest : Option DeflectRequest

/-- The lateral rotation axis built by the collision handler (the source
overwrites the cross product with `(1,0,0)` when its squared length exceeds
1e-8 and otherwise normalizes it — exactly as written). -/
def missileDeflectAxis (approachDir : Vec3) : Vec3 :=
  let up : Vec3 := ⟨0, 1, 0⟩
  let axis := Vec3.cross approachDir up
  if 1e-8 < axis.normSq then ⟨1, 0, 0⟩ else axis.normalizeJS

/-- The collision branch of `Missile.useFrame` once `distance <= hitDist` with
the asteroid alive.  `storeMassKg` is the store's `asteroidMassKg`, which the
handler reads but does not use: the branch mass is the constant 4500
(`const mass = 4500`). -/
def missileCollisionUpdate (_storeMassKg : ℝ) (rocketAngleDeg : ℝ)
    (approachDir : Vec3) : CollisionOutcome :=
  let mass : ℝ := 4500
  if 3000 < mass then
    { missileVisible := false, asteroidDestroyed := false,
      deflectRequest :=
        if 0.001 < |rocketAngleDeg| then
          some { angleDeg := rocketAngleDeg,
                 axis := some (missileDeflectAxis approachDir) }
        else none }
  else
    { missileVisible := false, asteroidDestroyed := true,
      deflectRequest := none }

/-! ## Frame utilities (spec §4.1) -/

/-- Modelled from the spec: the Frame & Time Utilities (`rotateFrame`, §4.1)
belong to the backend engine, which is not under src/ (src/ only contains its
TypeScript client, src/frontend/src/App.tsx).  Supported frames are
heliocentric (ecliptic), geocentric-inertial (equatorial) and Earth-fixed. -/
inductive Frame where
  | helio
  | geo
  | ecef

/-- Rotation about the x-axis by `θ` radians. -/
def rotX (θ : ℝ) (v : Vec3) : Vec3 :=
  ⟨v.x, Real.cos θ * v.y - Real.sin θ * v.z,
    Real.sin θ * v.y + Real.cos θ * v.z⟩

/-- Rotation about the z-axis by `θ` radians. -/
def rotZ (θ : ℝ) (v : Vec3) : Vec3 :=
  ⟨Real.cos θ * v.x - Real.sin θ * v.y,
    Real.sin θ * v.x + Real.cos θ * v.y, v.z⟩

/-- Modelled from the spec: the J2000 mean obliquity of the ecliptic, the
fixed rotation between the heliocentric-ecliptic and geocentric-inertial
(equatorial) orientations. -/
def obliquityRad : ℝ := 23.439291111 * π / 180

/-- Modelled from the spec: Earth's rotation angle at a Julian date (the ERA
linear-in-UT1 formula), used for the geocentric-inertial ↔ Earth-fixed
rotation (`eciToEcef` "applies Earth's rotation at the given epoch"). -/
def earthRotationAngle (jd : ℝ) : ℝ :=
  2 * π * (0.7790572732640 + 1.00273781191135448 * (jd - 2451545.0))

/-- Orientation change from a frame into the geocentric-inertial reference
orientation. -/
def toGeoInertial : Frame → ℝ → Vec3 → Vec3
  | .helio, _, v => rotX obliquityRad v
  | .geo, _, v => v
  | .ecef, jd, v => rotZ (earthRotationAngle jd) v

/-- Orientation change from the geocentric-inertial reference orientation
into a frame. -/
def fromGeoInertial : Frame → ℝ → Vec3 → Vec3
  | .helio, _, v => rotX (-obliquityRad) v
  | .geo, _, v => v
  | .ecef, jd, v => rotZ (-earthRotationAngle jd) v

/-- Modelled from the spec: `rotateFrame(vector, fromFrame, toFrame, jd)`
(§4.1) — a pure, stateless rotation between any two supported frames at a
Julian date. -/
def rotateFrame (v : Vec3) (fromFrame toFrame : Frame) (jd : ℝ) : Vec3 :=
  fromGeoInertial toFrame jd (toGeoInertial fromFrame jd v)

/-! ## Kinetic deflection (spec §4.6) -/

/-- The claim-relevant part of a `DeflectionResult` (spec §3). -/
structure DeflectionResult where
  preVelocity : Vec3
  postVelocity : Vec3
  deltaA : ℝ
  deltaP : ℝ

/-- Semi-major axis from the vis-viva relation at radius `r` and speed `v`. -/
def visVivaA (mu r v : ℝ) : ℝ := 1 / (2 / r - v ^ 2 / mu)

/-- Orbital period from Kepler's third law. -/
def keplerPeriod (mu a : ℝ) : ℝ := 2 * π * Real.sqrt (a ^ 3 / mu)

/-- Modelled from the spec: the Kinetic Deflection Model (`deflect`, §4.6) is
part of the backend engine absent from src/.  Per the spec, the delta-v (m/s,
converted to km/s) is applied along the resolved heliocentric direction unit
vector, and Δa, ΔP are derived via the vis-viva relation and Kepler's third
law from the pre- and post-maneuver speeds at the maneuver point. -/
def deflectSpec (mu : ℝ) (pos vel dirUnit : Vec3) (deltaV_m_s : ℝ) :
    DeflectionResult :=
  let vpost := vel + (deltaV_m_s / 1000) • dirUnit
  let r := pos.norm
  let aPre := visVivaA mu r vel.norm
  let aPost := visVivaA mu r vpost.norm
  { preVelocity := vel, postVelocity := vpost,
    deltaA := aPost - aPre,
    deltaP := keplerPeriod mu aPost - keplerPeriod mu aPre }

/-! ## Cesium impact metrics (frontend/src/impact/hooks/useImpactSimulation.ts) -/

/-- The `ImpactMetrics` payload pushed by `pushImpactMetrics`. -/
structure ImpactMetrics where
  lon : ℝ
  lat : ℝ
  impactTime : ℝ
  craterDiameterM : ℝ
  craterDepthM : ℝ
  quakeMagnitudeMw : ℝ
  tsunamiHeightM : ℝ
  tsunamiIndex : ℝ

/-- `Number(x.toFixed(1))` — one-decimal rounding. -/
def toFixed1 (x : ℝ) : ℝ := ((round (x * 10) : ℤ) : ℝ) / 10

/-- `pushImpactMetrics` from useImpactSimulation.ts: the metrics payload
built at an impact at (`lon`, `lat`) with `Date.now() = now`.  The hook takes
no asteroid data at all — every physical metric is computed from in-file
constants. -/
def pushImpactMetrics (lon lat now : ℝ) : ImpactMetrics :=
  let craterDiameterM : ℝ := 100 * 20
  let craterDepthM := craterDiameterM * 0.22
  let SHOCK_MAX_RADIUS : ℝ := 3000
  let quakeMagnitudeMw := toFixed1 (4.0 + SHOCK_MAX_RADIUS / 1000 * 0.5)
  let tsunamiHeightM := max 0 ((round (craterDiameterM * 0.004) : ℤ) : ℝ)
  let tsunamiIndex := min 10 (toFixed1 (tsunamiHeightM / 2))
  { lon := lon, lat := lat, impactTime := now,
    craterDiameterM := craterDiameterM, craterDepthM := craterDepthM,
    quakeMagnitudeMw := quakeMagnitudeMw, tsunamiHeightM := tsunamiHeightM,
    tsunamiIndex := tsunamiIndex }

end

/-! ## Page2 asteroid selection (src/unnamed/part_004)

The catalog-lookup flow is data-driven and is embedded over exact rationals
and strings, so every step is computable. -/

/-- The Page2 `Asteroid` record (src/unnamed/part_004). -/
structure Asteroid4 where
  id : String
  name : String
  diameter : ℚ
  velocity : ℚ
  closeApproachDate : Option String
  distanceFromEarth : String
  orbitingBody : String
  deriving DecidableEq, Repr

/-- The claim-relevant fields of the backend `ImpactResponse` consumed by
`handleAsteroidSelect`; absent (`undefined`/`null`) fields are `none`.
`distanceLdStr` carries the already-formatted `toFixed(2)` string of
`distance_ld` (the numeric formatting itself is not claim-relevant). -/
structure ImpactResponseData where
  neo_display_name : Option String
  name : Option String
  diameter_km : Option ℚ
  velocity_km_s : Option ℚ
  approach : Option String
  distanceLdStr : Option String
  orbiting_body : Option String
  deriving DecidableEq, Repr

/-- The `mockAsteroids` table of src/unnamed/part_004. -/
def mockAsteroids : List Asteroid4 :=
  [ ⟨"2000433", "433 Eros", 0.34, 17.5, some "2025-10-06", "4.2 LD", "Earth"⟩,
    ⟨"2001221", "1221 Amor", 0.37, 7.4, some "2029-04-13", "0.1 LD", "Earth"⟩,
    ⟨"2000719", "719 Albert", 0.52, 15.2, some "2025-12-15", "7.8 LD", "Earth"⟩,
    ⟨"2000887", "887 Alinda", 0.28, 19.3, some "2025-08-22", "3.1 LD", "Earth"⟩,
    ⟨"2001036", "1036 Ganymed", 0.41, 12.8, some "2025-11-30", "5.5 LD", "Earth"⟩ ]

/-- The enhanced asteroid built on a successful fetch.  JavaScript `||`
fallbacks on the name strings and `??` fallbacks on the numeric fields are
both embedded as `Option.getD`-style selection (for the claim-relevant
fields, a present backend value wins, otherwise the mock value is kept). -/
def enhanceAsteroid (asteroidId : String) (mockData : Asteroid4)
    (backendData : ImpactResponseData) : Asteroid4 :=
  { id := asteroidId,
    name := ((backendData.neo_display_name).orElse
      (fun _ => backendData.name)).getD mockData.name,
    diameter := backendData.diameter_km.getD mockData.diameter,
    velocity := backendData.velocity_km_s.getD mockData.velocity,
    closeApproachDate :=
      ((backendData.approach).map some).getD mockData.closeApproachDate,
    distanceFromEarth := backendData.distanceLdStr.getD mockData.distanceFromEarth,
    orbitingBody := backendData.orbiting_body.getD mockData.orbitingBody }

/-- The component state touched by `handleAsteroidSelect`. -/
structure Page2State where
  selectedAsteroid : Option Asteroid4
  loading : Bool
  error : Option String
  deriving DecidableEq, Repr

/-- The error message set in the `catch` branch. -/
def fetchErrorMessage : String := "Failed to load asteroid data. Using cached values."

/-- `handleAsteroidSelect` from src/unnamed/part_004, with the outcome of the
awaited `fetchImpact` call passed in as `fetchResult` (`Except Unit` for a
rejected promise).  On an unknown id the handler returns early; otherwise the
mock data is shown immediately, and the fetch outcome either replaces it with
the enhanced record (clearing the error) or keeps it and sets the error
message (`finally` clears `loading` in both branches). -/
def handleAsteroidSelect (asteroidId : String)
    (fetchResult : Except Unit ImpactResponseData) (st : Page2State) :
    Page2State :=
  match mockAsteroids.find? (fun a => a.id == asteroidId) with
  | none => st
  | some mockData =>
      match fetchResult with
      | .ok backendData =>
          { selectedAsteroid := some (enhanceAsteroid asteroidId mockData backendData),
            loading := false, error := none }
      | .error _ =>
          { selectedAsteroid := some mockData,
            loading := false, error := some fetchErrorMessage }

/-! ## Vec3 lemmas -/

namespace Vec3

theorem add_def (a b : Vec3) : a + b = ⟨a.x + b.x, a.y + b.y, a.z + b.z⟩ := rfl

theorem sub_def (a b : Vec3) : a - b = ⟨a.x - b.x, a.y - b.y, a.z - b.z⟩ := rfl

theorem smul_def (c : ℝ) (v : Vec3) : c • v = ⟨c * v.x, c * v.y, c * v.z⟩ := rfl

theorem normSq_nonneg (v : Vec3) : 0 ≤ normSq v := by
  have hx := sq_nonneg v.x
  have hy := sq_nonneg v.y
  have hz := sq_nonneg v.z
  simp only [normSq, dot, sq] at *
  nlinarith

theorem normSq_eq_zero_iff (v : Vec3) : normSq v = 0 ↔ v = zero := by
  constructor
  · intro h
    have hx := sq_nonneg v.x
    have hy := sq_nonneg v.y
    have hz := sq_nonneg v.z
    simp only [normSq, dot] at h
    have hx0 : v.x = 0 := by nlinarith
    have hy0 : v.y = 0 := by nlinarith
    have hz0 : v.z = 0 := by nlinarith
    ext <;> simp [hx0, hy0, hz0, zero]
  · intro h; subst h; simp [normSq, dot, zero]

theorem norm_eq_zero_iff (v : Vec3) : norm v = 0 ↔ v = zero := by
  rw [norm, Real.sqrt_eq_zero (normSq_nonneg v), normSq_eq_zero_iff]

theorem norm_nonneg (v : Vec3) : 0 ≤ norm v := Real.sqrt_nonneg _

theorem norm_smul (c : ℝ) (v : Vec3) : norm (c • v) = |c| * norm v := by
  simp only [norm, normSq, dot, smul_def]
  rw [show c * v.x * (c * v.x) + c * v.y * (c * v.y) + c * v.z * (c * v.z)
        = c ^ 2 * (v.x * v.x + v.y * v.y + v.z * v.z) by ring]
  rw [Real.sqrt_mul (sq_nonneg c), Real.sqrt_sq_eq_abs]

theorem norm_normalizeJS (v : Vec3) (h : v ≠ zero) : norm (normalizeJS v) = 1 := by
  have hn : norm v ≠ 0 := fun h0 => h ((norm_eq_zero_iff v).mp h0)
  have hpos : 0 < norm v := lt_of_le_of_ne (norm_nonneg v) (Ne.symm hn)
  rw [normalizeJS, if_neg hn, norm_smul, abs_of_pos (by positivity), one_div,
    inv_mul_cancel₀ hn]

theorem normalizeJS_zero : normalizeJS zero = zero := by
  rw [normalizeJS, if_pos ((norm_eq_zero_iff zero).mpr rfl)]

theorem smul_zero_vec (c : ℝ) : c • zero = zero := by
  ext <;> simp [smul_def, zero]

theorem add_sub_cancel_left (c w : Vec3) : c + w - c = w := by
  ext <;> simp [add_def, sub_def]

theorem add_zero_vec (c : Vec3) : c + zero = c := by
  ext <;> simp [add_def, zero]

end Vec3

/-! ## Claim C1 (impact energetics formula) -/

/-- C1: As stated, the claim fails on `calculateImpactEffects`.  At the
concrete `/comparison`-route asteroid (diameter 1000, velocity 20,
mass 10⁶ kg) the computed energy is 1000³·20²/1000 = 4·10⁸, which is neither
½·m·v² with velocity in km/s (2·10⁸) nor ½·m·v² with velocity in m/s
(2·10¹⁴); moreover two asteroids with identical mass and velocity (hence
identical ½·m·v²) but different diameters get different energies, so the
energy does not depend on the inputs only through ½·m·v². -/
theorem C1_counterexample :
    (calculateImpactEffects routeAsteroid).energy ≠
      1 / 2 * routeAsteroid.mass * routeAsteroid.velocity ^ 2 ∧
    (calculateImpactEffects routeAsteroid).energy ≠
      1 / 2 * routeAsteroid.mass * (1000 * routeAsteroid.velocity) ^ 2 ∧
    routeAsteroid.mass = ({ routeAsteroid with diameter := 2000 } : Asteroid).mass ∧
    routeAsteroid.velocity = ({ routeAsteroid with diameter := 2000 } : Asteroid).velocity ∧
    (calculateImpactEffects routeAsteroid).energy ≠
      (calculateImpactEffects { routeAsteroid with diameter := 2000 }).energy := by
  refine ⟨?_, ?_, rfl, rfl, ?_⟩ <;> norm_num [calculateImpactEffects, routeAsteroid]

/-- C1 (amended): `calculateImpactEffects` returns energy equal to
diameter³·velocity²/1000 (no TNT-equivalent division is performed), and the
computed energy depends on the inputs only through diameter³·velocity². -/
theorem C1_energy_formula :
    (∀ a : Asteroid,
      (calculateImpactEffects a).energy = a.diameter ^ 3 * a.velocity ^ 2 / 1000) ∧
    ∀ a b : Asteroid,
      a.diameter ^ 3 * a.velocity ^ 2 = b.diameter ^ 3 * b.velocity ^ 2 →
      (calculateImpactEffects a).energy = (calculateImpactEffects b).energy := by
  refine ⟨fun a => rfl, fun a b h => ?_⟩
  show a.diameter ^ 3 * a.velocity ^ 2 / 1000 = b.diameter ^ 3 * b.velocity ^ 2 / 1000
  rw [h]

/-- C1 witness: the dependence-only-through-d³·v² part at the concrete pair
(100, 8) and (400, 1), where 100³·8² = 400³·1². -/
theorem C1_energy_formula_witness :
    (100 : ℝ) ^ 3 * 8 ^ 2 = (400 : ℝ) ^ 3 * 1 ^ 2 ∧
    (calculateImpactEffects ⟨100, 8, 5, "rocky", "direct"⟩).energy =
      (calculateImpactEffects ⟨400, 1, 7, "icy", "far"⟩).energy :=
  ⟨by norm_num, C1_energy_formula.2 _ _ (by norm_num)⟩

/-! ## Claim C8 (energy quadratic in velocity) -/

/-- C8: doubling the velocity while holding every other field fixed exactly
quadruples the computed impact energy. -/
theorem C8_energy_quadratic_in_velocity (a : Asteroid) :
    (calculateImpactEffects { a with velocity := 2 * a.velocity }).energy =
      4 * (calculateImpactEffects a).energy := by
  show a.diameter ^ 3 * (2 * a.velocity) ^ 2 / 1000 =
    4 * (a.diameter ^ 3 * a.velocity ^ 2 / 1000)
  ring

/-! ## Claim C9 (engine purity) -/

/-- C9: the engine computations of ComparisonScreen are pure functions of the
fields they read — two asteroids agreeing on diameter and velocity produce
identical impact effects, and additionally agreeing mitigation records produce
identical mitigation effects, regardless of every other field. -/
theorem C9_engine_purity :
    (∀ a b : Asteroid, a.diameter = b.diameter → a.velocity = b.velocity →
      calculateImpactEffects a = calculateImpactEffects b) ∧
    ∀ (a b : Asteroid) (m n : MitigationStrategy),
      a.diameter = b.diameter → a.velocity = b.velocity →
      m.successRatePct = n.successRatePct → m.mass = n.mass →
      m.velocity = n.velocity →
      calculateMitigationEffects a m = calculateMitigationEffects b n := by
  constructor
  · intro a b h1 h2
    simp only [calculateImpactEffects, h1, h2]
  · intro a b m n h1 h2 h3 h4 h5
    simp only [calculateMitigationEffects, calculateImpactEffects, h1, h2, h3, h4, h5]

/-- C9 witness: purity at concrete records differing only in unread fields. -/
theorem C9_engine_purity_witness :
    calculateImpactEffects ⟨100, 8, 1, "rocky", "near"⟩ =
      calculateImpactEffects ⟨100, 8, 999, "icy", "far"⟩ ∧
    calculateMitigationEffects ⟨100, 8, 1, "rocky", "near"⟩ ⟨"DART", 85, 500, 10⟩ =
      calculateMitigationEffects ⟨100, 8, 999, "icy", "far"⟩ ⟨"HAMMER", 85, 500, 10⟩ :=
  ⟨C9_engine_purity.1 _ _ rfl rfl, C9_engine_purity.2 _ _ _ _ rfl rfl rfl rfl rfl⟩

/-! ## Claim C10 (deflection-angle mapping shape) -/

theorem logTwo_div_pos : 0 < Real.log 2 / 600 :=
  div_pos (Real.log_pos one_lt_two) (by norm_num)

theorem mapAngle_abs (a : ℝ) :
    |mapAngleToSmallDeflection a| =
      10 * (1 - Real.exp (-(Real.log 2 / 600 * |a|))) := by
  have hexp : Real.exp (-(Real.log 2 / 600 * |a|)) ≤ 1 := by
    rw [← Real.exp_zero]
    exact Real.exp_le_exp.mpr
      (neg_nonpos.mpr (mul_nonneg logTwo_div_pos.le (abs_nonneg a)))
  rcases eq_or_ne a 0 with h0 | h0
  · simp [mapAngleToSmallDeflection, h0, Real.sign_zero]
  · have hsign : |Real.sign a| = 1 := by
      rcases lt_or_gt_of_ne h0 with hneg | hpos
      · rw [Real.sign_of_neg hneg]; norm_num
      · rw [Real.sign_of_pos hpos]; norm_num
    simp only [mapAngleToSmallDeflection, abs_mul, hsign, one_mul]
    rw [abs_of_nonneg
      (by linarith : (0 : ℝ) ≤ 1 - Real.exp (-(Real.log 2 / 600 * |a|)))]
    rw [abs_of_nonneg (by norm_num : (0 : ℝ) ≤ 10)]

theorem mapAngle_zero : mapAngleToSmallDeflection 0 = 0 := by
  simp [mapAngleToSmallDeflection, Real.sign_zero]

/-- C10: the deflection-angle map vanishes at 0, matches the sign of its
input, stays strictly below 10 degrees in absolute value, is strictly
increasing in the absolute input angle, and reaches half of the 10-degree cap
at an input of 600 degrees. -/
theorem C10_mapAngle_shape :
    mapAngleToSmallDeflection 0 = 0 ∧
    (∀ a : ℝ, 0 < a → 0 < mapAngleToSmallDeflection a) ∧
    (∀ a : ℝ, a < 0 → mapAngleToSmallDeflection a < 0) ∧
    (∀ a : ℝ, |mapAngleToSmallDeflection a| < 10) ∧
    (∀ a b : ℝ, |a| < |b| →
      |mapAngleToSmallDeflection a| < |mapAngleToSmallDeflection b|) ∧
    mapAngleToSmallDeflection 600 = 5 := by
  have hk := logTwo_div_pos
  have habs := mapAngle_abs
  have hyawpos : ∀ a : ℝ, a ≠ 0 →
      0 < 10 * (1 - Real.exp (-(Real.log 2 / 600 * |a|))) := by
    intro a ha
    have h1 : Real.exp (-(Real.log 2 / 600 * |a|)) < 1 := by
      rw [Real.exp_lt_one_iff]
      have : 0 < |a| := abs_pos.mpr ha
      nlinarith
    nlinarith
  refine ⟨mapAngle_zero, ?_, ?_, ?_, ?_, ?_⟩
  · intro a ha
    have := hyawpos a (ne_of_gt ha)
    simpa [mapAngleToSmallDeflection, Real.sign_of_pos ha] using this
  · intro a ha
    have := hyawpos a (ne_of_lt ha)
    have h : mapAngleToSmallDeflection a =
        -(10 * (1 - Real.exp (-(Real.log 2 / 600 * |a|)))) := by
      simp [mapAngleToSmallDeflection, Real.sign_of_neg ha]
    rw [h]; linarith
  · intro a
    rw [habs a]
    have := Real.exp_pos (-(Real.log 2 / 600 * |a|))
    nlinarith
  · intro a b hab
    rw [habs a, habs b]
    have h1 : Real.exp (-(Real.log 2 / 600 * |b|)) <
        Real.exp (-(Real.log 2 / 600 * |a|)) := by
      apply Real.exp_lt_exp.mpr
      nlinarith
    nlinarith
  · have h600 : |(600 : ℝ)| = 600 := abs_of_pos (by norm_num)
    have harg : -(Real.log 2 / 600 * |(600 : ℝ)|) = -Real.log 2 := by
      rw [h600]; ring
    have hs : Real.sign (600 : ℝ) = 1 := Real.sign_of_pos (by norm_num)
    simp only [mapAngleToSmallDeflection, hs, harg, one_mul]
    rw [Real.exp_neg, Real.exp_log (by norm_num : (0:ℝ) < 2)]
    norm_num

/-- C10 witness: sign preservation instantiated at the concrete angle 1. -/
theorem C10_mapAngle_shape_witness :
    (0 : ℝ) < 1 ∧ 0 < mapAngleToSmallDeflection 1 :=
  ⟨by norm_num, C10_mapAngle_shape.2.1 1 (by norm_num)⟩

/-! ## Claim C2 (frame rotation round trip) -/

theorem rotX_rotX (a b : ℝ) (v : Vec3) : rotX a (rotX b v) = rotX (a + b) v := by
  ext <;> simp [rotX, Real.cos_add, Real.sin_add] <;> ring

theorem rotZ_rotZ (a b : ℝ) (v : Vec3) : rotZ a (rotZ b v) = rotZ (a + b) v := by
  ext <;> simp [rotZ, Real.cos_add, Real.sin_add] <;> ring

theorem rotX_zero (v : Vec3) : rotX 0 v = v := by
  ext <;> simp [rotX]

theorem rotZ_zero (v : Vec3) : rotZ 0 v = v := by
  ext <;> simp [rotZ]

theorem toGeoInertial_fromGeoInertial (F : Frame) (jd : ℝ) (w : Vec3) :
    toGeoInertial F jd (fromGeoInertial F jd w) = w := by
  cases F <;>
    simp [toGeoInertial, fromGeoInertial, rotX_rotX, rotZ_rotZ, rotX_zero, rotZ_zero]

theorem fromGeoInertial_toGeoInertial (F : Frame) (jd : ℝ) (v : Vec3) :
    fromGeoInertial F jd (toGeoInertial F jd v) = v := by
  cases F <;>
    simp [toGeoInertial, fromGeoInertial, rotX_rotX, rotZ_rotZ, rotX_zero, rotZ_zero]

/-- C2: for every vector, every ordered pair of supported frames and every
Julian date, rotating into the target frame and back returns the original
vector — here exactly (over real arithmetic), which in particular is within
the 1e-9 relative tolerance of the claim. -/
theorem C2_rotateFrame_roundtrip (v : Vec3) (A B : Frame) (jd : ℝ) :
    rotateFrame (rotateFrame v A B jd) B A jd = v := by
  rw [rotateFrame, rotateFrame, toGeoInertial_fromGeoInertial,
    fromGeoInertial_toGeoInertial]

/-! ## Claim C3 (Cesium impact metrics are fixed constants) -/

theorem round_real_ofNat (n : ℕ) : round ((n : ℝ)) = n := round_natCast n

/-- C3: the metrics pushed for a simulated impact on the Cesium screen are
fixed constants — crater diameter 2000 m, crater depth 440 m, quake magnitude
Mw 5.5, tsunami height 8 m, tsunami index 4 — for every impact location and
time; no asteroid parameter enters the computation. -/
theorem C3_fixed_impact_metrics (lon lat now : ℝ) :
    (pushImpactMetrics lon lat now).craterDiameterM = 2000 ∧
    (pushImpactMetrics lon lat now).craterDepthM = 440 ∧
    (pushImpactMetrics lon lat now).quakeMagnitudeMw = 5.5 ∧
    (pushImpactMetrics lon lat now).tsunamiHeightM = 8 ∧
    (pushImpactMetrics lon lat now).tsunamiIndex = 4 := by
  have h55 : round ((55 : ℝ)) = 55 := round_real_ofNat 55
  have h8 : round ((8 : ℝ)) = 8 := round_real_ofNat 8
  have h40 : round ((40 : ℝ)) = 40 := round_real_ofNat 40
  have e1 : ((100 : ℝ) * 20) * 0.004 = 8 := by norm_num
  have e2 : ((4.0 : ℝ) + 3000 / 1000 * 0.5) * 10 = 55 := by norm_num
  refine ⟨by norm_num [pushImpactMetrics], by norm_num [pushImpactMetrics], ?_, ?_, ?_⟩
  · simp only [pushImpactMetrics, toFixed1, e2, h55]
    norm_num
  · simp only [pushImpactMetrics, e1, h8]
    norm_num
  · simp only [pushImpactMetrics, toFixed1, e1, h8]
    norm_num [h40]

/-! ## Claim C7 (collision mass hard-coded to 4500) -/

/-- C7: the collision handler's branch mass is the constant 4500 kg — the
outcome is independent of the store's `asteroidMassKg` — and since
4500 > 3000 every collision takes the heavy branch: the missile is hidden,
the asteroid is never destroyed, and a deflection is requested exactly when
the rocket angle exceeds 0.001 in absolute value. -/
theorem C7_collision_mass_hardcoded (m m' angle : ℝ) (dir : Vec3) :
    missileCollisionUpdate m angle dir = missileCollisionUpdate m' angle dir ∧
    (missileCollisionUpdate m angle dir).asteroidDestroyed = false ∧
    (missileCollisionUpdate m angle dir).missileVisible = false ∧
    ((missileCollisionUpdate m angle dir).deflectRequest ≠ none ↔
      0.001 < |angle|) := by
  have h45 : (3000 : ℝ) < 4500 := by norm_num
  refine ⟨rfl, ?_, ?_, ?_⟩
  · simp only [missileCollisionUpdate, if_pos h45]
  · simp only [missileCollisionUpdate, if_pos h45]
  · simp only [missileCollisionUpdate, if_pos h45]
    by_cases h : 0.001 < |angle| <;> simp [h]

/-! ## Claim C6 (catalog lookup failure fallback) -/

/-- C6: when the backend fetch for a selected id fails, the handler keeps the
previously displayed mock record (it is not cleared) and sets the explicit
error message — the fallback is flagged, never silent. -/
theorem C6_fetch_failure_fallback (asteroidId : String) (st : Page2State)
    (mockData : Asteroid4)
    (hfind : mockAsteroids.find? (fun a => a.id == asteroidId) = some mockData) :
    handleAsteroidSelect asteroidId (.error ()) st =
      { selectedAsteroid := some mockData, loading := false,
        error := some fetchErrorMessage } ∧
    (handleAsteroidSelect asteroidId (.error ()) st).error ≠ none := by
  have h : handleAsteroidSelect asteroidId (.error ()) st =
      { selectedAsteroid := some mockData, loading := false,
        error := some fetchErrorMessage } := by
    rw [handleAsteroidSelect, hfind]
  exact ⟨h, by rw [h]; simp⟩

/-- C6 witness: the failure path at the concrete id "2000433" (433 Eros),
starting from an empty component state. -/
theorem C6_fetch_failure_fallback_witness :
    handleAsteroidSelect "2000433" (.error ()) ⟨none, false, none⟩ =
      { selectedAsteroid := some ⟨"2000433", "433 Eros", 0.34, 17.5,
          some "2025-10-06", "4.2 LD", "Earth"⟩,
        loading := false, error := some fetchErrorMessage } ∧
    (handleAsteroidSelect "2000433" (.error ()) ⟨none, false, none⟩).error ≠ none :=
  C6_fetch_failure_fallback "2000433" ⟨none, false, none⟩ _ (by rfl)

/-! ## Claim C4 (zero-magnitude deflection is a no-op) -/

theorem rotAxisApply_zero_angle (k v : Vec3) : rotAxisApply k 0 v = v := by
  ext <;> simp [rotAxisApply]

theorem effYawDeg_zero_angle (pos vel c : Vec3) (R : ℝ) :
    effYawDeg 0 pos vel c R = 0 := by
  simp only [effYawDeg, abs_zero]
  rw [if_neg (by norm_num : ¬ ((10 : ℝ) ≤ (0 : ℝ)))]
  exact mapAngle_zero

theorem astStep_zero_angle_deflect (R : ℝ) (c : Vec3) (δ : ℝ) (pv vv : Vec3)
    (hb : Bool) (oc : SimOutcome) (ax : Option Vec3) :
    astStep R c δ ⟨pv, vv, some ⟨0, ax⟩, hb, true, oc⟩ =
      astStep R c δ ⟨pv, vv, none, hb, true, oc⟩ := by
  simp [astStep, effYawDeg_zero_angle, rotAxisApply_zero_angle]

/-- C4: a zero-magnitude deflection is a no-op.  In the mission scene, a
collision with rocket angle 0 requests no deflection at all, and a pending
deflection request with angle 0 leaves the asteroid's velocity and its whole
subsequent simulated trajectory identical to the un-deflected run; in the
spec's kinetic-deflection model, `deltaV_m_s = 0` returns post-maneuver
velocity equal to the pre-maneuver velocity with Δa = 0 and ΔP = 0. -/
theorem C4_zero_deflection_noop :
    (∀ (storeMass : ℝ) (dir : Vec3),
      (missileCollisionUpdate storeMass 0 dir).deflectRequest = none) ∧
    (∀ (R : ℝ) (c : Vec3) (δ : ℝ) (δs : List ℝ) (pv vv : Vec3)
        (hb : Bool) (oc : SimOutcome) (ax : Option Vec3),
      astRun R c (δ :: δs) ⟨pv, vv, some ⟨0, ax⟩, hb, true, oc⟩ =
        astRun R c (δ :: δs) ⟨pv, vv, none, hb, true, oc⟩) ∧
    (∀ (mu : ℝ) (pos vel dirUnit : Vec3),
      deflectSpec mu pos vel dirUnit 0 =
        { preVelocity := vel, postVelocity := vel, deltaA := 0, deltaP := 0 }) := by
  refine ⟨?_, ?_, ?_⟩
  · intro m dir
    norm_num [missileCollisionUpdate]
  · intro R c δ δs pv vv hb oc ax
    simp only [astRun, astStep_zero_angle_deflect]
  · intro mu pos vel dir
    have hv : vel + (0 : ℝ) • dir = vel := by
      ext <;> simp [Vec3.add_def, Vec3.smul_def]
    simp [deflectSpec, hv]

/-! ## Claim C5 (already inside the sphere at the start means immediate hit) -/

theorem clamp_to_surface_dist (R : ℝ) (hR : 0 ≤ R) (c w : Vec3) :
    ((c + R • w.normalizeJS) - c).norm = R ∨ c + R • w.normalizeJS = c := by
  rcases eq_or_ne w Vec3.zero with h | h
  · right
    rw [h, Vec3.normalizeJS_zero, Vec3.smul_zero_vec, Vec3.add_zero_vec]
  · left
    rw [Vec3.add_sub_cancel_left, Vec3.norm_smul, Vec3.norm_normalizeJS w h,
      mul_one, abs_of_nonneg hR]

/-- C5: if the asteroid starts a frame alive, not yet hit, with no pending
deflection, and its distance to Earth's center is already at or below
`earthRadius + ASTER_RAD + HIT_TOL`, then that very first frame classifies
the run as a hit: the hit flag is set, the velocity is zeroed, the asteroid
is destroyed in the store, a pending outcome becomes `earthHit`, and the
position is clamped to the surface (distance `earthRadius` from the center,
or the degenerate center point itself when the integrated position coincides
with the center). -/
theorem C5_start_inside_sphere_hits
    (R : ℝ) (c : Vec3) (δ : ℝ) (s : AstState)
    (halive : s.alive = true) (hhit : s.hit = false) (hdef : s.deflect = none)
    (hR : 0 ≤ R)
    (hin : (c - s.pos).norm ≤ R + ASTER_RAD + HIT_TOL) :
    (astStep R c δ s).hit = true ∧
    (astStep R c δ s).vel = Vec3.zero ∧
    (astStep R c δ s).alive = false ∧
    (s.outcome = SimOutcome.pending →
      (astStep R c δ s).outcome = SimOutcome.earthHit) ∧
    (((astStep R c δ s).pos - c).norm = R ∨ (astStep R c δ s).pos = c) := by
  have hfloor : (1e-5 : ℝ) ≤ R + ASTER_RAD + HIT_TOL := by
    rw [ASTER_RAD, HIT_TOL]; linarith
  have hcond : max (c - s.pos).norm 1e-5 ≤ R + ASTER_RAD + HIT_TOL :=
    max_le hin hfloor
  refine ⟨?_, ?_, ?_, ?_, ?_⟩
  · simp [astStep, halive, hdef, hhit, hcond]
  · simp [astStep, halive, hdef, hhit, hcond]
  · simp [astStep, halive, hdef, hhit, hcond]
  · intro hpend
    simp [astStep, halive, hdef, hhit, hcond, hpend]
  · simp only [astStep, halive, hdef, hhit, hcond]
    norm_num
    exact clamp_to_surface_dist R hR c _

/-- C5 witness: the asteroid starting exactly at Earth's center point (well
inside the target sphere of radius 1 + ASTER_RAD + HIT_TOL) hits on the very
first frame. -/
theorem C5_start_inside_sphere_hits_witness :
    (astStep 1 ⟨0, 0, 0⟩ 1
        ⟨⟨0, 0, 0⟩, ⟨0, 0, 0⟩, none, false, true, SimOutcome.pending⟩).hit = true ∧
    (astStep 1 ⟨0, 0, 0⟩ 1
        ⟨⟨0, 0, 0⟩, ⟨0, 0, 0⟩, none, false, true, SimOutcome.pending⟩).vel = Vec3.zero ∧
    (astStep 1 ⟨0, 0, 0⟩ 1
        ⟨⟨0, 0, 0⟩, ⟨0, 0, 0⟩, none, false, true, SimOutcome.pending⟩).alive = false ∧
    ((⟨⟨0, 0, 0⟩, ⟨0, 0, 0⟩, none, false, true, SimOutcome.pending⟩ : AstState).outcome =
        SimOutcome.pending →
      (astStep 1 ⟨0, 0, 0⟩ 1
        ⟨⟨0, 0, 0⟩, ⟨0, 0, 0⟩, none, false, true, SimOutcome.pending⟩).outcome =
        SimOutcome.earthHit) ∧
    (((astStep 1 ⟨0, 0, 0⟩ 1
        ⟨⟨0, 0, 0⟩, ⟨0, 0, 0⟩, none, false, true, SimOutcome.pending⟩).pos -
          ⟨0, 0, 0⟩).norm = 1 ∨
      (astStep 1 ⟨0, 0, 0⟩ 1
        ⟨⟨0, 0, 0⟩, ⟨0, 0, 0⟩, none, false, true, SimOutcome.pending⟩).pos = ⟨0, 0, 0⟩) :=
  C5_start_inside_sphere_hits 1 ⟨0, 0, 0⟩ 1
    ⟨⟨0, 0, 0⟩, ⟨0, 0, 0⟩, none, false, true, SimOutcome.pending⟩
    rfl rfl rfl (by norm_num)
    (by simp [Vec3.sub_def, Vec3.norm, Vec3.normSq, Vec3.dot, Real.sqrt_zero,
        ASTER_RAD, HIT_TOL]; norm_num)
